import Mathlib

/-!
Verification of the F3 columnar file format core (fff-poc / fff-core).

This file shallowly embeds the Rust source of the repository:
machine integers become `Nat` with explicit `% 2 ^ w` where overflow
matters, fallible Rust functions returning `Result` become `Except`,
and stateful one-shot cells (`OnceLock`) become explicit state passing.
Each definition mirrors one function or type of the source; doc comments
name the Rust location it embeds.
-/

namespace F3

/-- Model of `fff_core::errors::Error` restricted to the constructors used by
the embedded code (`General`, `ParseError`).  The crate defining the enum is
not under `src/`; the constructors and their payloads are taken from the uses
in `src/fff-poc`. -/
inductive Err where
  | General (msg : String)
  | ParseError (msg : String)
deriving DecidableEq, Repr

/-- Display of an error, used where the Rust code formats an error with
`format!("... {}", e)`; the message payload is what the repository's tests
match on (`contains("Mock read failure")` etc.). -/
def Err.msg : Err → String
  | .General m => m
  | .ParseError m => m

/-! ## Checksum type tag (src/fff-poc/src/common/checksum.rs, lines 4-19) -/

/-- `ChecksumType` from `src/fff-poc/src/common/checksum.rs`. -/
inductive ChecksumType where
  | XxHash
deriving DecidableEq, Repr

/-- `impl TryFrom<u8> for ChecksumType` (checksum.rs lines 10-19): byte 0
decodes to `XxHash`, every other byte is rejected with an error. -/
def ChecksumType.tryFrom (v : Nat) : Except Err ChecksumType :=
  if v = 0 then .ok ChecksumType.XxHash
  else .error (.General ("Invalid checksum type: " ++ toString v))

/-! ## In-memory slice reader (src/fff-poc/src/io/reader.rs, lines 54-77) -/

/-- One past the largest `u64`/64-bit `usize` value. -/
def U64_MOD : Nat := 2 ^ 64

/-- `impl Reader for [u8]`, `read_exact_at` (reader.rs lines 55-72).
`data` is the slice, `bufLen` the length of the destination buffer, and
`offset` the `u64` read offset (`offset as usize` is lossless on the 64-bit
targets the crate builds for).  `offset.checked_add(buf.len())` is modelled
by the explicit `2 ^ 64` overflow test; on success the function returns the
bytes copied into the destination buffer. -/
def sliceReadExactAt (data : List Nat) (bufLen : Nat) (offset : Nat) :
    Except Err (List Nat) :=
  if offset + bufLen ≥ U64_MOD then
    .error (.General ("Offset overflow"))
  else if offset + bufLen > data.length then
    .error (.General ("Read out of bounds: tried to read " ++ toString bufLen ++
      " bytes at offset " ++ toString offset ++ " but slice length is " ++
      toString data.length))
  else
    .ok ((data.drop offset).take bufLen)

/-- `impl Reader for [u8]`, `size` (reader.rs lines 74-76). -/
def sliceSize (data : List Nat) : Except Err Nat :=
  .ok data.length

/-! ## Selections and the reader builder (src/fff-poc/src/reader/builder.rs) -/

/-- `Projection` from `src/fff-poc/src/reader` (declared outside `src/`; the
two variants are those matched on in builder.rs lines 196-241). -/
inductive Projection where
  | All
  | LeafColumnIndexes (indexes : List Nat)
deriving DecidableEq, Repr

/-- `Selection` from `src/fff-poc/src/reader`: either everything or a list of
row-index groups (the builder counts the groups, builder.rs line 53). -/
inductive Selection where
  | All
  | RowIndexes (rowIndexes : List (List Nat))
deriving DecidableEq, Repr

/-- The builder state of `FileReaderV2Builder<R>` (builder.rs lines 20-31);
the reader handle of type `R` is kept abstract. -/
structure FileReaderV2Builder (R : Type) where
  reader : R
  projections : Projection
  selection : Selection
  read_ahead : Bool
  verify_io_unit_checksum : Bool
  verify_file_checksum : Bool
deriving Repr

/-- `FileReaderV2Builder::new` (builder.rs lines 34-44); `Projection::default()`
is `All` and `Selection::default()` is `All`. -/
def FileReaderV2Builder.new {R : Type} (reader : R) : FileReaderV2Builder R :=
  { reader := reader
    projections := Projection.All
    selection := Selection.All
    read_ahead := false
    verify_io_unit_checksum := false
    verify_file_checksum := false }

/-- `FileReaderV2Builder::with_selection` (builder.rs lines 51-61): a
`RowIndexes` selection with a group count other than one is rejected and the
builder is not updated; otherwise the selection is stored. -/
def FileReaderV2Builder.with_selection {R : Type} (b : FileReaderV2Builder R)
    (selection : Selection) : Except Err (FileReaderV2Builder R) :=
  match selection with
  | .RowIndexes rowIndexes =>
      if rowIndexes.length ≠ 1 then
        .error (.General ("Only one row index is supported for experiment purposes"))
      else
        .ok { b with selection := Selection.RowIndexes rowIndexes }
  | .All => .ok { b with selection := Selection.All }

/-! ## Writer context (src/fff-poc/src/context.rs, lines 17-141) and
encoder selection (src/fff-poc/src/encoder/encunit.rs, lines 13-27) -/

/-- `WASMId` (context.rs line 18). -/
structure WASMId where
  val : Nat
deriving DecidableEq, Repr

instance : BEq WASMId := ⟨fun a b => a.val == b.val⟩

instance : LawfulBEq WASMId where
  rfl := by intro a; simp [BEq.beq]
  eq_of_beq := by
    intro a b h
    cases a; cases b
    simpa [BEq.beq] using h

/-- A small model of `arrow_schema::DataType` (external dependency): the
embedding only needs a type with decidable equality to serve as the key of
the writer context's maps. -/
inductive DataType where
  | Int32
  | Int64
  | Boolean
  | Utf8
  | StructType
deriving DecidableEq, Repr

/-- `WasmLib` (context.rs lines 20-37); paths and binaries are modelled as a
string and a byte list. -/
structure WasmLib where
  encode_lib_path : String
  decode_wasm_binary : List Nat
deriving DecidableEq, Repr

/-- `WASMWritingContext` (context.rs lines 41-51); the two hash maps are
modelled as association lists. -/
structure WASMWritingContext where
  wasms : List (WASMId × WasmLib)
  data_type_to_wasm_id : List (DataType × WASMId)
  always_set_custom_wasm_for_built_in : Bool
  builtin_wasm_id : Option WASMId
deriving Repr

/-- `WASMWritingContext::empty` (context.rs lines 93-100). -/
def WASMWritingContext.empty : WASMWritingContext :=
  { wasms := []
    data_type_to_wasm_id := []
    always_set_custom_wasm_for_built_in := false
    builtin_wasm_id := none }

/-- `WASMWritingContext::data_type_to_wasm_id` (context.rs lines 124-126). -/
def WASMWritingContext.dataTypeToWasmId (ctx : WASMWritingContext)
    (dt : DataType) : Option WASMId :=
  (ctx.data_type_to_wasm_id.lookup dt)

/-- `WASMWritingContext::data_type_to_wasm_lib` (context.rs lines 128-132). -/
def WASMWritingContext.dataTypeToWasmLib (ctx : WASMWritingContext)
    (dt : DataType) : Option WasmLib :=
  (ctx.data_type_to_wasm_id.lookup dt).bind (fun x => ctx.wasms.lookup x)

/-- The two encoder shapes `create_encunit_encoder` can return
(encunit.rs lines 18-27): a `CustomEncoder` built from the mapped library's
encode path with the fixed function name, or the built-in `VortexEncoder`. -/
inductive EncoderKind where
  | Custom (encodeLibPath : String) (funcName : String)
  | Vortex (enableDict : Bool)
deriving DecidableEq, Repr

/-- `create_encunit_encoder` (encunit.rs lines 13-27).  `tryNewCustom` stands
for `CustomEncoder::try_new` (declared outside `src/`); when the data type has
a mapped wasm library a custom encoder is built (its failure is wrapped as a
`General` error), otherwise the built-in `VortexEncoder` is returned. -/
def create_encunit_encoder (tryNewCustom : String → String → Except String Unit)
    (ctx : WASMWritingContext) (dataType : DataType) (enableDict : Bool) :
    Except Err EncoderKind :=
  match ctx.dataTypeToWasmLib dataType with
  | some lib =>
      match tryNewCustom lib.encode_lib_path "encode" with
      | .ok _ => .ok (EncoderKind.Custom lib.encode_lib_path "encode")
      | .error e => .error (.General ("Failed to create custom encoder: " ++ e))
  | none => .ok (EncoderKind.Vortex enableDict)

/-! ## Metadata read planning (src/fff-poc/src/reader/builder.rs, lines 196-266) -/

/-- `ColumnMetaPointer` of a leaf column: the flatbuffer entry exposing
`offset()` and `size_()` (builder.rs lines 246-260). -/
structure ColumnMetaPointer where
  offset : Nat
  size : Nat
deriving DecidableEq, Repr

/-- The metadata reads issued by `build`: either one contiguous read of the
whole column-metadata region, or one read per projected pointer in every row
group (builder.rs lines 203-266). -/
inductive MetadataReadPlan where
  | contiguous (readLen : Nat)
  | individual (ptrs : List (List ColumnMetaPointer))
deriving DecidableEq, Repr

/-- The `ratio` computed in builder.rs lines 196-201.  The Rust code divides
in `f64`; since the flatbuffer column count fits in far fewer than 53 bits,
the `f64` comparison `ratio > 0.6` coincides with the exact rational
comparison used here (the only divergence of `ℚ` from `f64`, division by a
zero column count, lands in the `total_columns ≤ 100` arm either way). -/
def projectedFraction (projections : Projection) (totalColumns : Nat) : ℚ :=
  match projections with
  | .All => 1
  | .LeafColumnIndexes ps => (ps.length : ℚ) / (totalColumns : ℚ)

/-- The pointers the per-row-group loop visits (builder.rs lines 232-241):
all of them under `Projection::All`, otherwise `col_metadatas.get(i)` for each
projected index (out-of-range indexes are given a dummy pointer; the
flatbuffer accessor would trap there, and the theorems assume in-range
projections). -/
def projectedPointers (projections : Projection)
    (colMetaPtrs : List ColumnMetaPointer) : List ColumnMetaPointer :=
  match projections with
  | .All => colMetaPtrs
  | .LeafColumnIndexes ps => ps.map (fun i => colMetaPtrs.getD i ⟨0, 0⟩)

/-- The metadata-fetch portion of `FileReaderV2Builder::build`
(builder.rs lines 169-266).  `colMetaPtrss` lists, per row group, the column
metadata pointers; `total_columns` is the first row group's column count
(line 176).  When `ratio > 0.6 || total_columns <= 100` the whole region of
`metadata_size - footer_size` bytes is read at once and later sliced;
otherwise each projected column's metadata is read from its own pointer. -/
def metadataReadPlan (projections : Projection)
    (metadataSize footerSize : Nat)
    (colMetaPtrss : List (List ColumnMetaPointer)) : MetadataReadPlan :=
  let totalColumns := (colMetaPtrss.headD []).length
  if projectedFraction projections totalColumns > 6 / 10 ∨ totalColumns ≤ 100 then
    .contiguous (metadataSize - footerSize)
  else
    .individual (colMetaPtrss.map (projectedPointers projections))

/-! ## Footer size check under read-ahead (builder.rs lines 110-157) -/

/-- Modelled from the spec: `DEFAULT_IOUNIT_SIZE` lives in
`src/fff-poc/src/options.rs`, which is not under `src/`; builder.rs line 24
documents the read-ahead as "a first 8MB read", giving 8 MiB. -/
def DEFAULT_IOUNIT_SIZE : Nat := 8 * 1024 * 1024

/-- Modelled from the spec: `POSTSCRIPT_SIZE` lives in the `fff-format`
crate, which is not under `src/`; the spec fixes the postscript as a trailer
of "a constant ≥ 32 bytes" whose fields (magic, version, two `u32` sizes, a
`u64` checksum, a tag byte, padding) fit in 32 bytes, and the builder's own
capacity check uses the literal `DEFAULT_IOUNIT_SIZE - 32`.  The constant is
modelled as exactly 32. -/
def POSTSCRIPT_SIZE : Nat := 32

/-- The footer-capacity check of `build` under read-ahead (builder.rs lines
135-142): `footer_size >= (DEFAULT_IOUNIT_SIZE - 32)` is rejected. -/
def footerSizeCheckReadAhead (footerSize : Nat) : Except Err Unit :=
  if footerSize ≥ DEFAULT_IOUNIT_SIZE - 32 then
    .error (.General ("Footer size " ++ toString footerSize ++
      " exceeds read-ahead buffer capacity (max " ++
      toString (DEFAULT_IOUNIT_SIZE - 32) ++ ")"))
  else
    .ok ()

/-! ## Decoder registry on the read path (src/fff-poc/src/context.rs,
lines 143-258) -/

/-- `MetadataSection` from `src/fff-poc/src/file/footer.rs` (not under
`src/`; field names and uses are visible in context.rs lines 212-214 and
builder.rs lines 296-300): an optional section locator. -/
structure MetadataSection where
  offset : Nat
  size : Nat
  compression_type : Nat
deriving DecidableEq, Repr

/-- A pure model of a `Reader` implementation (io/reader.rs trait, lines
19-22): `readBytes len off` returns the bytes a successful
`read_exact_at(buf, off)` with `buf.len() = len` would deposit, or the error
it would return. -/
structure ReaderModel where
  readBytes : Nat → Nat → Except Err (List Nat)

/-- One entry of the `WASMBinaries` flatbuffer list: a `(offset, size)`
locator (context.rs lines 223-225 read `loc.offset()` and `loc.size_()`). -/
structure WASMLocator where
  offset : Nat
  size : Nat
deriving DecidableEq, Repr

/-- The external functions `WASMReadingContext::get_runtime` calls out to:
`flatbuffers::root::<WASMBinaries>` composed with `.wasm_binaries()`
(returning `none` when the list field is absent), and `Runtime::try_new`
from the `fff-ude-wasm` crate.  Both are outside `src/` and kept abstract;
`Rt` is the opaque runtime type. -/
structure WASMEnv (Rt : Type) where
  parseWASMBinaries : List Nat → Except String (Option (List WASMLocator))
  runtimeTryNew : List Nat → Except String Rt

/-- `WASMReadingContext` (context.rs lines 143-150).  The `OnceLock` holding
`Result<HashMap<WASMId, Arc<Runtime>>>` is modelled as an `Option` of an
`Except` over an association list; `none` is the unset cell. -/
structure WASMReadingContext (Rt : Type) where
  lazy_wasm : Option (Except Err (List (WASMId × Rt)))
  wasm_locations : Option MetadataSection
  r : Option ReaderModel
  encoding_versions : Option (List (Nat × String))

/-- `WASMReadingContext::new` (context.rs lines 169-171): lazy loading from
file, cell unset. -/
def WASMReadingContext.new {Rt : Type} (wasm_locations : MetadataSection)
    (r : ReaderModel) : WASMReadingContext Rt :=
  { lazy_wasm := none
    wasm_locations := some wasm_locations
    r := some r
    encoding_versions := none }

/-- `WASMReadingContext::new_with_rt` (context.rs lines 187-198): the cell is
seeded `Ok(map)` at construction. -/
def WASMReadingContext.newWithRt {Rt : Type} (wasm_rts : List (WASMId × Rt)) :
    WASMReadingContext Rt :=
  { lazy_wasm := some (.ok wasm_rts)
    wasm_locations := none
    r := none
    encoding_versions := none }

/-- The per-locator loop of the init closure (context.rs lines 222-238):
read each wasm binary, compile it with `Runtime::try_new`, and key it by its
enumeration index. -/
def initWasmLoop {Rt : Type} (env : WASMEnv Rt) (read : ReaderModel) :
    Nat → List WASMLocator → Except Err (List (WASMId × Rt))
  | _, [] => .ok []
  | id, loc :: rest =>
    match read.readBytes loc.size loc.offset with
    | .error e => .error e
    | .ok buf =>
      match env.runtimeTryNew buf with
      | .error e => .error (.General ("Failed to create WASM runtime for id " ++
          toString id ++ ": " ++ e))
      | .ok rt =>
        match initWasmLoop env read (id + 1) rest with
        | .error e => .error e
        | .ok tail => .ok ((WASMId.mk id, rt) :: tail)

/-- The `init` closure of `get_runtime` (context.rs lines 206-241): fetch the
`WASMBinaries` section bytes, parse the locator table, then read and compile
every module. -/
def initWasm {Rt : Type} (env : WASMEnv Rt) (ctx : WASMReadingContext Rt) :
    Except Err (List (WASMId × Rt)) :=
  match ctx.wasm_locations with
  | none => .error (.General ("WASM locations not available"))
  | some wasm_locations =>
    match ctx.r with
    | none => .error (.General ("Reader not available"))
    | some read =>
      match read.readBytes wasm_locations.size wasm_locations.offset with
      | .error e => .error e
      | .ok buf =>
        match env.parseWASMBinaries buf with
        | .error e =>
            .error (.General ("Failed to parse WASM binaries metadata: " ++ e))
        | .ok none => .error (.General ("WASM binaries list is empty"))
        | .ok (some wasm_list) => initWasmLoop env read 0 wasm_list

/-- The value `lazy_wasm.get_or_init(init)` evaluates to (context.rs line
202): the memoized cell if set, otherwise the outcome of running `init`. -/
def initOutcome {Rt : Type} (env : WASMEnv Rt) (ctx : WASMReadingContext Rt) :
    Except Err (List (WASMId × Rt)) :=
  match ctx.lazy_wasm with
  | some v => v
  | none => initWasm env ctx

/-- The tail of `get_runtime` (context.rs lines 246-253): a memoized `Err` is
re-served wrapped as "WASM initialization failed: ..", a memoized map is
looked up, a missing id yields "WASM runtime not found for id: ..". -/
def serveFromCell {Rt : Type} (cell : Except Err (List (WASMId × Rt)))
    (wasm_id : WASMId) : Except Err Rt :=
  match cell with
  | .error e => .error (.General ("WASM initialization failed: " ++ e.msg))
  | .ok runtimes =>
    match runtimes.lookup wasm_id with
    | some rt => .ok rt
    | none => .error (.General ("WASM runtime not found for id: " ++
        toString wasm_id.val))

/-- `WASMReadingContext::get_runtime` (context.rs lines 200-253).  The
`OnceLock::get_or_init` is made explicit: the returned context has the cell
set to the (possibly failed) initialization outcome, and the result is served
from that cell. -/
def getRuntime {Rt : Type} (env : WASMEnv Rt) (ctx : WASMReadingContext Rt)
    (wasm_id : WASMId) : Except Err Rt × WASMReadingContext Rt :=
  let cell := initOutcome env ctx
  (serveFromCell cell wasm_id, { ctx with lazy_wasm := some cell })

/-! ## XXH64 streaming hash

`src/fff-poc/src/common/checksum.rs` delegates to
`xxhash_rust::xxh64::Xxh64`, an external dependency.  Modelled from the spec
(§4.2) as the standard XXH64 streaming algorithm with seed 0, byte lists as
input and all 64-bit arithmetic made explicit with `% 2 ^ 64`.  The streaming
state mirrors `Xxh64`: total length consumed, four lane accumulators, and a
buffer of fewer than 32 pending bytes. -/

def PRIME64_1 : Nat := 0x9E3779B185EBCA87
def PRIME64_2 : Nat := 0xC2B2AE3D27D4EB4F
def PRIME64_3 : Nat := 0x165667B19E3779F9
def PRIME64_4 : Nat := 0x85EBCA77C2B2AE63
def PRIME64_5 : Nat := 0x27D4EB2F165667C5

/-- Truncation to 64 bits. -/
def w64 (n : Nat) : Nat := n % U64_MOD

/-- Left rotation of a 64-bit value by `r` bits (`0 < r < 64`). -/
def rotl64 (x r : Nat) : Nat :=
  (x % 2 ^ (64 - r)) * 2 ^ r + x / 2 ^ (64 - r)

/-- Little-endian decode of a byte list into a natural number. -/
def leBytesToNat : List Nat → Nat
  | [] => 0
  | b :: bs => b + 256 * leBytesToNat bs

/-- Little-endian encode of `n` into `w` bytes. -/
def natToLEBytes (n : Nat) : Nat → List Nat
  | 0 => []
  | w + 1 => n % 256 :: natToLEBytes (n / 256) w

/-- One XXH64 lane round. -/
def xxh64Round (acc lane : Nat) : Nat :=
  w64 (rotl64 (w64 (acc + w64 (lane * PRIME64_2))) 31 * PRIME64_1)

/-- One XXH64 merge round of the digest. -/
def xxh64MergeRound (h acc : Nat) : Nat :=
  w64 (w64 (Nat.xor h (xxh64Round 0 acc) * PRIME64_1) + PRIME64_4)

/-- The streaming state of `Xxh64`. -/
structure Xxh64State where
  totalLen : Nat
  acc1 : Nat
  acc2 : Nat
  acc3 : Nat
  acc4 : Nat
  buffer : List Nat
deriving DecidableEq, Repr

/-- `Xxh64::new(seed)`; `Xxh64::default()` uses seed 0. -/
def xxh64Init (seed : Nat) : Xxh64State :=
  { totalLen := 0
    acc1 := w64 (seed + PRIME64_1 + PRIME64_2)
    acc2 := w64 (seed + PRIME64_2)
    acc3 := w64 seed
    acc4 := w64 (seed + (U64_MOD - PRIME64_1))
    buffer := [] }

/-- Feed one byte to the streaming state; a full 32-byte buffer is consumed
as a stripe of four little-endian `u64` lanes. -/
def xxh64PushByte (s : Xxh64State) (b : Nat) : Xxh64State :=
  let buf := s.buffer ++ [b % 256]
  if buf.length = 32 then
    { totalLen := s.totalLen + 1
      acc1 := xxh64Round s.acc1 (leBytesToNat (buf.take 8))
      acc2 := xxh64Round s.acc2 (leBytesToNat ((buf.drop 8).take 8))
      acc3 := xxh64Round s.acc3 (leBytesToNat ((buf.drop 16).take 8))
      acc4 := xxh64Round s.acc4 (leBytesToNat ((buf.drop 24).take 8))
      buffer := [] }
  else
    { s with totalLen := s.totalLen + 1, buffer := buf }

/-- `Checksum::update` for `XxHash` (checksum.rs lines 33-35): stream the
data into the state. -/
def xxh64Update (s : Xxh64State) (data : List Nat) : Xxh64State :=
  data.foldl xxh64PushByte s

/-- The tail processing of the XXH64 digest over the pending bytes:
8-byte lanes, then a 4-byte lane, then single bytes. -/
def xxh64Finish (h : Nat) : List Nat → Nat
  | b0 :: b1 :: b2 :: b3 :: b4 :: b5 :: b6 :: b7 :: rest =>
      let k1 := xxh64Round 0 (leBytesToNat [b0, b1, b2, b3, b4, b5, b6, b7])
      xxh64Finish (w64 (w64 (rotl64 (Nat.xor h k1) 27 * PRIME64_1) + PRIME64_4)) rest
  | b0 :: b1 :: b2 :: b3 :: rest =>
      xxh64Finish
        (w64 (w64 (rotl64 (Nat.xor h (w64 (leBytesToNat [b0, b1, b2, b3] * PRIME64_1))) 23
          * PRIME64_2) + PRIME64_3)) rest
  | b :: rest =>
      xxh64Finish (w64 (rotl64 (Nat.xor h (w64 (b % 256 * PRIME64_5))) 11 * PRIME64_1)) rest
  | [] => h

/-- The final avalanche of XXH64. -/
def xxh64Avalanche (h : Nat) : Nat :=
  let h1 := Nat.xor h (h / 2 ^ 33)
  let h2 := w64 (h1 * PRIME64_2)
  let h3 := Nat.xor h2 (h2 / 2 ^ 29)
  let h4 := w64 (h3 * PRIME64_3)
  Nat.xor h4 (h4 / 2 ^ 32)

/-- `Checksum::finalize` for `XxHash` (checksum.rs lines 37-39), i.e.
`Xxh64::digest`: merge the lane accumulators (or fall back to
`seed + PRIME64_5` when fewer than 32 bytes were consumed), add the length,
fold in the pending bytes and avalanche. -/
def xxh64Digest (s : Xxh64State) : Nat :=
  let h :=
    if s.totalLen ≥ 32 then
      let h0 := w64 (rotl64 s.acc1 1 + rotl64 s.acc2 7 + rotl64 s.acc3 12 +
        rotl64 s.acc4 18)
      xxh64MergeRound (xxh64MergeRound (xxh64MergeRound
        (xxh64MergeRound h0 s.acc1) s.acc2) s.acc3) s.acc4
    else
      w64 (s.acc3 + PRIME64_5)
  xxh64Avalanche (xxh64Finish (w64 (h + s.totalLen)) s.buffer)

/-- `create_checksum` (checksum.rs lines 46-50) followed by `update` and
`finalize`: the one-shot checksum of a byte string. -/
def computeChecksum (ct : ChecksumType) (data : List Nat) : Nat :=
  match ct with
  | .XxHash => xxh64Digest (xxh64Update (xxh64Init 0) data)

/-! ## Postscript and the file-level checksum check
(builder.rs lines 86-133) -/

/-- The postscript fields used by `build`; `read_postscript` lives in
`src/fff-poc/src/reader/mod.rs`, not under `src/`.  Modelled from the spec
(§3, §6): a 32-byte trailer holding magic, format version, `footer_size:
u32`, `metadata_size: u32`, `data_checksum: u64`, `checksum_type: u8` and
padding. -/
structure PostScript where
  footer_size : Nat
  metadata_size : Nat
  data_checksum : Nat
  checksum_type : ChecksumType
deriving DecidableEq, Repr

/-- Modelled from the spec: `read_postscript` decodes the trailing
`POSTSCRIPT_SIZE` bytes.  The spec fixes the field order (magic, version,
`footer_size u32`, `metadata_size u32`, `data_checksum u64`,
`checksum_type u8`, padding) but not the widths of magic/version/padding;
they are laid out here as 4 + 2 leading bytes and 9 trailing padding bytes,
so `footer_size` sits at postscript offset 6, `metadata_size` at 10,
`data_checksum` at 14 and `checksum_type` at 22.  An unknown checksum tag is
rejected via `ChecksumType::try_from` (spec §6: "Unknown value →
InvalidChecksumTag on open"). -/
def readPostscript (file : List Nat) : Except Err PostScript :=
  if file.length < POSTSCRIPT_SIZE then
    .error (.ParseError ("file smaller than postscript"))
  else
    let ps := file.drop (file.length - POSTSCRIPT_SIZE)
    match ChecksumType.tryFrom (ps.getD 22 0) with
    | .error e => .error e
    | .ok ct =>
      .ok { footer_size := leBytesToNat ((ps.drop 6).take 4)
            metadata_size := leBytesToNat ((ps.drop 10).take 4)
            data_checksum := leBytesToNat ((ps.drop 14).take 8)
            checksum_type := ct }

/-- `FileReaderV2Builder::verify_file_checksum` (builder.rs lines 86-108):
recompute the checksum over `bytes[0 .. file_size - POSTSCRIPT_SIZE]` with
the postscript's checksum type and compare against the stored value. -/
def verifyFileChecksumStep (file : List Nat) (checksumInPs : Nat)
    (ct : ChecksumType) : Except Err Unit :=
  let computed := computeChecksum ct (file.take (file.length - POSTSCRIPT_SIZE))
  if checksumInPs ≠ computed then
    .error (.General ("File level Checksum verification failed"))
  else
    .ok ()

/-- The portion of `build` with `verify_file_checksum` enabled that can emit
the checksum-mismatch error (builder.rs lines 121-133): parse the postscript,
then run the file-level checksum verification.  No other step of `build`
produces `ChecksumMismatch`. -/
def openFileChecksumStep (file : List Nat) : Except Err Unit :=
  match readPostscript file with
  | .error e => .error e
  | .ok ps => verifyFileChecksumStep file ps.data_checksum ps.checksum_type

/-- Flip bit `k` of the byte at index `p`. -/
def listFlipBit (l : List Nat) (p k : Nat) : List Nat :=
  l.set p (Nat.xor (l.getD p 0) (2 ^ k))

/-! ## Buffer-to-array reconstruction

`fff_core::util::buffer_to_array` lives in the `fff-core` crate, whose
implementation is not under `src/` (only its tests,
`src/fff-core/tests/buffer_conversion_errors.rs`, are).  Modelled from the
spec (§4.3): per type family a minimum buffer count, `MissingBuffers` below
it, `UnsupportedType` for struct/other nesting, and otherwise the lower
array constructor's result — error or array — returned as is. -/

/-- The logical type families distinguished by §4.3. -/
inductive LogicalType where
  | primitiveFixedWidth
  | boolean
  | byteArray
  | byteView
  | listType
  | structType
deriving DecidableEq, Repr

/-- Modelled from the spec: the error kinds of `fff-core` used by
buffer-to-array (§7 taxonomy). -/
inductive CoreError where
  | MissingBuffers
  | UnsupportedType
  | ConstructorFailure (msg : String)
deriving DecidableEq, Repr

/-- Modelled from the spec (§4.3 table): the minimum number of raw buffers a
type family requires, `none` for unsupported nesting. -/
def requiredBufferMin : LogicalType → Option Nat
  | .primitiveFixedWidth => some 2
  | .boolean => some 2
  | .byteArray => some 3
  | .byteView => some 2
  | .listType => some 2
  | .structType => none

/-- Modelled from the spec (§4.3): `buffer_to_array`.  `lowerCtor` stands for
the lower typed-array constructor; `A` is the opaque array type.  The
function is a total Lean function: it returns an error value on every
malformed input and never aborts. -/
def buffer_to_array {A : Type} (lowerCtor : LogicalType → List (List Nat) → Nat →
      Except CoreError A) (t : LogicalType) (buffers : List (List Nat))
    (rowCount : Nat) : Except CoreError A :=
  match requiredBufferMin t with
  | none => .error CoreError.UnsupportedType
  | some m =>
    if buffers.length < m then .error CoreError.MissingBuffers
    else lowerCtor t buffers rowCount

/-- The number of projected leaf columns, in the spec's terms (§4.7 step 5):
all columns under `Projection::All`, the index count otherwise. -/
def numProjectedLeafColumns (projections : Projection) (totalColumns : Nat) : Nat :=
  match projections with
  | .All => totalColumns
  | .LeafColumnIndexes ps => ps.length

/-! ## Concrete fixtures used by witnesses and counterexamples -/

/-- The `FailingReader` of `src/fff-poc/tests/error_handling.rs` (lines
27-38): every read fails with "Mock read failure". -/
def failingReaderModel : ReaderModel :=
  { readBytes := fun _ _ => .error (.General ("Mock read failure")) }

/-- A concrete environment over the unit runtime type. -/
def unitWASMEnv : WASMEnv Unit :=
  { parseWASMBinaries := fun _ => .ok none
    runtimeTryNew := fun _ => .ok () }

/-- The context of `test_wasm_context_with_failing_reader`
(error_handling.rs lines 55-73): a `WASMBinaries` locator of size 100 at
offset 0 over the failing reader. -/
def failingCtx : WASMReadingContext Unit :=
  WASMReadingContext.new { offset := 0, size := 100, compression_type := 0 }
    failingReaderModel

/-- A lower array constructor that always succeeds, for exercising
`buffer_to_array`. -/
def constOkLower : LogicalType → List (List Nat) → Nat → Except CoreError Nat :=
  fun _ _ _ => .ok 0

/-- A 32-byte file consisting of a postscript only: empty data region,
`footer_size = metadata_size = 0`, the stored checksum is the checksum of
the empty byte string, `checksum_type = 0` and all-zero padding. -/
def exampleFileF : List Nat :=
  List.replicate 14 0 ++ natToLEBytes (computeChecksum ChecksumType.XxHash []) 8 ++
    [0] ++ List.replicate 9 0

/-! # Theorems -/

/-- C8: decoding a checksum-type tag byte is total and never panics: the
byte 0 decodes to XxHash64, and every other byte value in 1..=255 yields an
invalid-checksum-tag error (realized in the code as a `General` error with
the message "Invalid checksum type: v"). -/
theorem checksum_tag_decode_total (v : Nat) (h1 : 1 ≤ v) (h2 : v ≤ 255) :
    ChecksumType.tryFrom 0 = .ok ChecksumType.XxHash ∧
    ChecksumType.tryFrom v =
      .error (.General ("Invalid checksum type: " ++ toString v)) := by
  refine ⟨rfl, ?_⟩
  have hv : v ≠ 0 := by omega
  simp [ChecksumType.tryFrom, hv]

/-- Witness for C8 at the concrete tag bytes 0 and 255. -/
theorem checksum_tag_decode_total_witness :
    ChecksumType.tryFrom 0 = .ok ChecksumType.XxHash ∧
    ChecksumType.tryFrom 255 =
      .error (.General ("Invalid checksum type: " ++ toString 255)) :=
  checksum_tag_decode_total 255 (by decide) (by decide)

/-- C2: for the in-memory slice `Reader`, `read_exact_at` fails with an
out-of-bounds error (a returned `General` error, never a panic) exactly when
`offset + buf.len()` exceeds the slice length — including when the addition
overflows the 64-bit address space — and otherwise succeeds, returning the
addressed bytes. -/
theorem slice_read_exact_at_bounds (data : List Nat) (bufLen offset : Nat)
    (hdata : data.length < U64_MOD) :
    (offset + bufLen > data.length →
      ∃ msg, sliceReadExactAt data bufLen offset = .error (.General msg)) ∧
    (offset + bufLen ≤ data.length →
      sliceReadExactAt data bufLen offset = .ok ((data.drop offset).take bufLen)) := by
  constructor
  · intro hgt
    by_cases hov : offset + bufLen ≥ U64_MOD
    · exact ⟨_, by unfold sliceReadExactAt; rw [if_pos hov]⟩
    · exact ⟨_, by unfold sliceReadExactAt; rw [if_neg hov, if_pos hgt]⟩
  · intro hle
    have hov : ¬ offset + bufLen ≥ U64_MOD := by omega
    have hgt : ¬ offset + bufLen > data.length := by omega
    unfold sliceReadExactAt
    rw [if_neg hov, if_neg hgt]

/-- Witness for C2: the scenario of
`test_slice_reader_out_of_bounds` (error_handling.rs lines 130-145) — data
"short" (5 bytes), a 100-byte destination buffer, offset 0. -/
theorem slice_read_exact_at_bounds_witness :
    ∃ msg, sliceReadExactAt [115, 104, 111, 114, 116] 100 0 =
      .error (.General msg) :=
  (slice_read_exact_at_bounds [115, 104, 111, 114, 116] 100 0 (by decide)).1
    (by decide)

/-- C9: `with_selection` accepts a `RowIndexes` selection exactly when it
has one group: any other group count is rejected with an error and the
builder is unchanged (the rejected selection is never stored), and one group
is stored in the returned builder. -/
theorem with_selection_single_group {R : Type} (b : FileReaderV2Builder R)
    (groups : List (List Nat)) :
    (groups.length ≠ 1 →
      FileReaderV2Builder.with_selection b (Selection.RowIndexes groups) =
        .error (.General ("Only one row index is supported for experiment purposes"))) ∧
    (groups.length = 1 →
      FileReaderV2Builder.with_selection b (Selection.RowIndexes groups) =
        .ok { b with selection := Selection.RowIndexes groups }) := by
  constructor <;> intro h <;>
    simp [FileReaderV2Builder.with_selection, h]

/-- Witness for C9 on a concrete builder: zero groups are rejected, one
group is accepted and stored. -/
theorem with_selection_single_group_witness :
    (FileReaderV2Builder.with_selection (FileReaderV2Builder.new ())
        (Selection.RowIndexes []) =
      .error (.General ("Only one row index is supported for experiment purposes"))) ∧
    (FileReaderV2Builder.with_selection (FileReaderV2Builder.new ())
        (Selection.RowIndexes [[5]]) =
      .ok { FileReaderV2Builder.new () with selection := Selection.RowIndexes [[5]] }) :=
  ⟨(with_selection_single_group (FileReaderV2Builder.new ()) []).1 (by decide),
   (with_selection_single_group (FileReaderV2Builder.new ()) [[5]]).2 rfl⟩

/-- C10 counterexample: with `WASMWritingContext::empty()` and a data type
with no explicit mapping, `create_encunit_encoder` does not fail — it falls
back to the built-in `VortexEncoder` (encunit.rs line 26).  No
`UnmappedDataType` error exists in the code. -/
theorem empty_context_unmapped_type_counterexample :
    create_encunit_encoder (fun _ _ => .ok ()) WASMWritingContext.empty
      DataType.Int32 true = .ok (EncoderKind.Vortex true) := rfl

/-- C10 amended: `empty()` has no built-in decoder and no data-type mapping;
encoding a column whose data type has no explicit mapping does not fail at
encoder selection but falls back to the native `VortexEncoder`. -/
theorem empty_context_no_builtin_no_mapping
    (tryNewCustom : String → String → Except String Unit)
    (dt : DataType) (enableDict : Bool) :
    WASMWritingContext.empty.builtin_wasm_id = none ∧
    WASMWritingContext.empty.wasms = [] ∧
    WASMWritingContext.empty.dataTypeToWasmId dt = none ∧
    create_encunit_encoder tryNewCustom WASMWritingContext.empty dt enableDict =
      .ok (EncoderKind.Vortex enableDict) :=
  ⟨rfl, rfl, rfl, rfl⟩

/-- C5: for the XxHash64 checksum, finalizing after `update a; update b`
equals finalizing after one update of the concatenation `a ++ b` (chunking
invariance, for all byte strings), and the byte strings "hell"/"oworld" of
the repository's own test witness order sensitivity. -/
theorem xxhash_chunking_invariant_order_sensitive :
    (∀ a b : List Nat,
      xxh64Digest (xxh64Update (xxh64Update (xxh64Init 0) a) b) =
        xxh64Digest (xxh64Update (xxh64Init 0) (a ++ b))) ∧
    xxh64Digest (xxh64Update (xxh64Update (xxh64Init 0)
        [104, 101, 108, 108]) [111, 119, 111, 114, 108, 100]) ≠
      xxh64Digest (xxh64Update (xxh64Update (xxh64Init 0)
        [111, 119, 111, 114, 108, 100]) [104, 101, 108, 108]) := by
  constructor
  · intro a b
    simp [xxh64Update, List.foldl_append]
  · decide

/-- C4 counterexample: under read-ahead, a postscript with
`footer_size = DEFAULT_IOUNIT_SIZE - POSTSCRIPT_SIZE = 8388576` fits within
the claimed bound, yet the check (builder.rs line 136, `>=` against
`DEFAULT_IOUNIT_SIZE - 32`) rejects it with the footer-too-large error. -/
theorem footer_size_boundary_counterexample :
    8388576 ≤ DEFAULT_IOUNIT_SIZE - POSTSCRIPT_SIZE ∧
    footerSizeCheckReadAhead 8388576 =
      .error (.General ("Footer size " ++ toString 8388576 ++
        " exceeds read-ahead buffer capacity (max " ++
        toString (DEFAULT_IOUNIT_SIZE - 32) ++ ")")) := by
  constructor
  · decide
  · rfl

/-- C4 amended: with read-ahead enabled, the footer-size check passes for
every `footer_size` strictly below `DEFAULT_IOUNIT_SIZE - POSTSCRIPT_SIZE`
and fails with the footer-too-large error for every `footer_size` greater
than or equal to that bound. -/
theorem footer_size_check_exact (footerSize : Nat) :
    (footerSize < DEFAULT_IOUNIT_SIZE - POSTSCRIPT_SIZE →
      footerSizeCheckReadAhead footerSize = .ok ()) ∧
    (footerSize ≥ DEFAULT_IOUNIT_SIZE - POSTSCRIPT_SIZE →
      ∃ msg, footerSizeCheckReadAhead footerSize = .error (.General msg)) := by
  constructor
  · intro h
    have hlt : ¬ footerSize ≥ DEFAULT_IOUNIT_SIZE - 32 := by
      simp only [DEFAULT_IOUNIT_SIZE, POSTSCRIPT_SIZE] at *
      omega
    unfold footerSizeCheckReadAhead
    rw [if_neg hlt]
  · intro h
    have hge : footerSize ≥ DEFAULT_IOUNIT_SIZE - 32 := by
      simp only [DEFAULT_IOUNIT_SIZE, POSTSCRIPT_SIZE] at *
      omega
    exact ⟨_, by unfold footerSizeCheckReadAhead; rw [if_pos hge]⟩

/-- Witness for C4's amended theorem: a 100-byte footer passes, a
footer of `8388600` bytes is rejected. -/
theorem footer_size_check_exact_witness :
    footerSizeCheckReadAhead 100 = .ok () ∧
    ∃ msg, footerSizeCheckReadAhead 8388600 = .error (.General msg) :=
  ⟨(footer_size_check_exact 100).1 (by decide),
   (footer_size_check_exact 8388600).2 (by decide)⟩

/-- For a positive column count, the code's rational comparison
`p / C > 6 / 10` coincides with the exact integer test `5 * p > 3 * C`. -/
theorem fraction_gt_iff (p C : Nat) (hC : 0 < C) :
    ((p : ℚ) / (C : ℚ) > 6 / 10) ↔ 5 * p > 3 * C := by
  rw [gt_iff_lt, div_lt_div_iff₀ (by norm_num) (by exact_mod_cast hC)]
  constructor
  · intro h
    have h10 : (6 * C : ℚ) < (10 * p : ℚ) := by linarith
    have : 6 * C < 10 * p := by exact_mod_cast h10
    omega
  · intro h
    have : 6 * C < 10 * p := by omega
    have h10 : (6 * C : ℚ) < (10 * p : ℚ) := by exact_mod_cast this
    push_cast at h10 ⊢
    linarith

/-- C3: in `build`, with `r` the projected-leaf-column fraction (here in the
exact form `5 * projected > 3 * total`, which is what the `f64` comparison
`r > 0.6` computes for any column count a flatbuffer can carry) and `C` the
total leaf-column count: if `r > 0.6` or `C ≤ 100`, the whole
column-metadata region is fetched with one contiguous read of exactly
`metadata_size - footer_size` bytes; otherwise each projected column's
metadata is read individually from its own `(offset, size)` pointer, in
every row group. -/
theorem metadata_batching_heuristic (proj : Projection)
    (metadataSize footerSize : Nat) (ptrss : List (List ColumnMetaPointer)) :
    ((5 * numProjectedLeafColumns proj (ptrss.headD []).length >
          3 * (ptrss.headD []).length ∨ (ptrss.headD []).length ≤ 100) →
      metadataReadPlan proj metadataSize footerSize ptrss =
        MetadataReadPlan.contiguous (metadataSize - footerSize)) ∧
    (¬ (5 * numProjectedLeafColumns proj (ptrss.headD []).length >
          3 * (ptrss.headD []).length ∨ (ptrss.headD []).length ≤ 100) →
      metadataReadPlan proj metadataSize footerSize ptrss =
        MetadataReadPlan.individual (ptrss.map (projectedPointers proj))) := by
  constructor
  · intro h
    have hcond : projectedFraction proj (ptrss.headD []).length > 6 / 10 ∨
        (ptrss.headD []).length ≤ 100 := by
      by_cases hle : (ptrss.headD []).length ≤ 100
      · exact Or.inr hle
      · left
        have hC : 0 < (ptrss.headD []).length := by omega
        rcases h with h | h
        · cases proj with
          | All =>
            simp only [projectedFraction]
            norm_num
          | LeafColumnIndexes ps =>
            simp only [projectedFraction]
            exact (fraction_gt_iff ps.length (ptrss.headD []).length hC).2
              (by simpa [numProjectedLeafColumns] using h)
        · omega
    simp only [metadataReadPlan]
    rw [if_pos hcond]
  · intro h
    push_neg at h
    obtain ⟨hfrac, hgt⟩ := h
    have hC : 0 < (ptrss.headD []).length := by omega
    have hcond : ¬ (projectedFraction proj (ptrss.headD []).length > 6 / 10 ∨
        (ptrss.headD []).length ≤ 100) := by
      push_neg
      refine ⟨?_, by omega⟩
      cases proj with
      | All =>
        exfalso
        simp only [numProjectedLeafColumns] at hfrac
        omega
      | LeafColumnIndexes ps =>
        simp only [projectedFraction]
        rw [← not_lt]
        intro hcontra
        have hint := (fraction_gt_iff ps.length (ptrss.headD []).length hC).1 hcontra
        simp only [numProjectedLeafColumns] at hfrac
        omega
    simp only [metadataReadPlan]
    rw [if_neg hcond]

/-- Witness for C3: a two-column, one-row-group layout with one projected
column (`C = 2 ≤ 100`) takes the contiguous read of
`metadata_size - footer_size = 80` bytes, while a 101-column layout with one
projected column (`r = 1/101 ≤ 0.6`, `C > 100`) reads the single projected
pointer individually. -/
theorem metadata_batching_heuristic_witness :
    metadataReadPlan (Projection.LeafColumnIndexes [0]) 100 20
        [[⟨0, 4⟩, ⟨4, 4⟩]] = MetadataReadPlan.contiguous 80 ∧
    metadataReadPlan (Projection.LeafColumnIndexes [0]) 100 20
        [(List.range 101).map (fun i => ⟨4 * i, 4⟩)] =
      MetadataReadPlan.individual [[⟨0, 4⟩]] := by
  constructor
  · exact (metadata_batching_heuristic (Projection.LeafColumnIndexes [0]) 100 20
      [[⟨0, 4⟩, ⟨4, 4⟩]]).1 (by decide)
  · have h := (metadata_batching_heuristic (Projection.LeafColumnIndexes [0]) 100 20
      [(List.range 101).map (fun i => ⟨4 * i, 4⟩)]).2
      (by simp [numProjectedLeafColumns])
    rw [h]
    simp [projectedPointers]

/-- C1: `get_runtime` is one-shot and its outcome is sticky — the first call
stores the initialization outcome in the memoized cell, every subsequent
call leaves the cell untouched and serves from it (the same result for the
same id), and if initialization fails, both the first and every subsequent
call return that same wrapped initialization error. -/
theorem get_runtime_one_shot_memoized {Rt : Type} (env : WASMEnv Rt)
    (ctx : WASMReadingContext Rt) (id1 id2 : WASMId) :
    ((getRuntime env ctx id1).2.lazy_wasm = some (initOutcome env ctx)) ∧
    ((getRuntime env (getRuntime env ctx id1).2 id2).2 = (getRuntime env ctx id1).2) ∧
    ((getRuntime env (getRuntime env ctx id1).2 id2).1 =
      serveFromCell (initOutcome env ctx) id2) ∧
    (id2 = id1 →
      (getRuntime env (getRuntime env ctx id1).2 id2).1 = (getRuntime env ctx id1).1) ∧
    (∀ e, initOutcome env ctx = .error e →
      (getRuntime env ctx id1).1 =
        .error (.General ("WASM initialization failed: " ++ e.msg)) ∧
      (getRuntime env (getRuntime env ctx id1).2 id2).1 =
        .error (.General ("WASM initialization failed: " ++ e.msg))) := by
  refine ⟨rfl, rfl, rfl, ?_, ?_⟩
  · intro he
    subst he
    rfl
  · intro e he
    constructor
    · show serveFromCell (initOutcome env ctx) id1 = _
      rw [he]
      rfl
    · show serveFromCell (initOutcome env (getRuntime env ctx id1).2) id2 = _
      have : initOutcome env (getRuntime env ctx id1).2 = initOutcome env ctx := rfl
      rw [this, he]
      rfl

/-- Witness for C1: the failing-reader scenario of
`test_wasm_context_with_failing_reader` — the first `get_runtime` returns
the wrapped I/O failure, and the second call on the resulting context
returns the same error. -/
theorem get_runtime_one_shot_memoized_witness :
    (getRuntime unitWASMEnv failingCtx ⟨0⟩).1 =
      .error (.General ("WASM initialization failed: " ++ "Mock read failure")) ∧
    (getRuntime unitWASMEnv (getRuntime unitWASMEnv failingCtx ⟨0⟩).2 ⟨0⟩).1 =
      .error (.General ("WASM initialization failed: " ++ "Mock read failure")) :=
  (get_runtime_one_shot_memoized unitWASMEnv failingCtx ⟨0⟩ ⟨0⟩).2.2.2.2
    (Err.General ("Mock read failure")) rfl

/-- C7: `buffer_to_array` is total and never panics: primitive fixed-width,
boolean, byte-array, byte-view and list types with fewer buffers than their
required minimum (2, 2, 3, 2, 2) yield `MissingBuffers`; struct always
yields `UnsupportedType`; and with enough buffers the result — including any
buffer-size or alignment error — is exactly what the lower array constructor
returns. -/
theorem buffer_to_array_total_error_handling {A : Type}
    (lowerCtor : LogicalType → List (List Nat) → Nat → Except CoreError A)
    (buffers : List (List Nat)) (rowCount : Nat) :
    (buffers.length < 2 →
      buffer_to_array lowerCtor LogicalType.primitiveFixedWidth buffers rowCount =
        .error CoreError.MissingBuffers) ∧
    (buffers.length < 2 →
      buffer_to_array lowerCtor LogicalType.boolean buffers rowCount =
        .error CoreError.MissingBuffers) ∧
    (buffers.length < 3 →
      buffer_to_array lowerCtor LogicalType.byteArray buffers rowCount =
        .error CoreError.MissingBuffers) ∧
    (buffers.length < 2 →
      buffer_to_array lowerCtor LogicalType.byteView buffers rowCount =
        .error CoreError.MissingBuffers) ∧
    (buffers.length < 2 →
      buffer_to_array lowerCtor LogicalType.listType buffers rowCount =
        .error CoreError.MissingBuffers) ∧
    (buffer_to_array lowerCtor LogicalType.structType buffers rowCount =
      .error CoreError.UnsupportedType) ∧
    (∀ t m, requiredBufferMin t = some m → m ≤ buffers.length →
      buffer_to_array lowerCtor t buffers rowCount = lowerCtor t buffers rowCount) := by
  refine ⟨?_, ?_, ?_, ?_, ?_, rfl, ?_⟩
  · intro h
    simp [buffer_to_array, requiredBufferMin, h]
  · intro h
    simp [buffer_to_array, requiredBufferMin, h]
  · intro h
    simp [buffer_to_array, requiredBufferMin, h]
  · intro h
    simp [buffer_to_array, requiredBufferMin, h]
  · intro h
    simp [buffer_to_array, requiredBufferMin, h]
  · intro t m hm hle
    unfold buffer_to_array
    rw [hm]
    simp only [if_neg (Nat.not_lt.mpr hle)]

/-- Witness for C7: the empty buffer list to an Int32-style primitive
reconstruction yields `MissingBuffers`, the struct case yields
`UnsupportedType`, and a sufficient buffer list is handed to the lower
constructor. -/
theorem buffer_to_array_total_error_handling_witness :
    buffer_to_array constOkLower LogicalType.primitiveFixedWidth [] 10 =
      .error CoreError.MissingBuffers ∧
    buffer_to_array constOkLower LogicalType.structType [[0]] 1 =
      .error CoreError.UnsupportedType ∧
    buffer_to_array constOkLower LogicalType.primitiveFixedWidth
      [[], [1, 0, 0, 0]] 1 = .ok 0 :=
  ⟨(buffer_to_array_total_error_handling constOkLower [] 10).1 (by decide),
   (buffer_to_array_total_error_handling constOkLower [[0]] 1).2.2.2.2.2.1,
   (buffer_to_array_total_error_handling constOkLower [[], [1, 0, 0, 0]] 1).2.2.2.2.2.2
     LogicalType.primitiveFixedWidth 2 rfl (by decide)⟩

/-- Little-endian byte decoding is injective on byte lists of equal length. -/
theorem leBytesToNat_inj : ∀ (bs bs' : List Nat), bs.length = bs'.length →
    (∀ b ∈ bs, b < 256) → (∀ b ∈ bs', b < 256) →
    leBytesToNat bs = leBytesToNat bs' → bs = bs'
  | [], [], _, _, _, _ => rfl
  | [], _ :: _, hlen, _, _, _ => by simp at hlen
  | _ :: _, [], hlen, _, _, _ => by simp at hlen
  | b :: t, b' :: t', hlen, hb, hb', heq => by
    have hbb : b < 256 := hb b (List.mem_cons_self b t)
    have hbb' : b' < 256 := hb' b' (List.mem_cons_self b' t')
    simp only [leBytesToNat] at heq
    have hhead : b = b' ∧ leBytesToNat t = leBytesToNat t' := by omega
    have htail := leBytesToNat_inj t t' (by simpa using hlen)
      (fun x hx => hb x (List.mem_cons_of_mem b hx))
      (fun x hx => hb' x (List.mem_cons_of_mem b' hx)) hhead.2
    rw [hhead.1, htail]

/-- C6 counterexample: flipping one bit inside the postscript region does
not necessarily produce a checksum mismatch.  `exampleFileF` is a valid
32-byte file (its whole extent is the postscript region); flipping bit 0 of
its final padding byte (position 31) leaves the parsed postscript and the
recomputed checksum unchanged, so the checksum-verification step of `build`
still succeeds — no `ChecksumMismatch` is raised. -/
theorem postscript_padding_flip_counterexample :
    exampleFileF.length = 32 ∧
    listFlipBit exampleFileF 31 0 ≠ exampleFileF ∧
    openFileChecksumStep exampleFileF = Except.ok () ∧
    openFileChecksumStep (listFlipBit exampleFileF 31 0) = Except.ok () := by
  refine ⟨rfl, by decide, rfl, rfl⟩

/-- C6 amended: with `verify_file_checksum` enabled, `build` recomputes the
checksum over `bytes[0 .. file_size − POSTSCRIPT_SIZE]` with `checksum_type`
and fails exactly when the computed value disagrees with the stored
`data_checksum`; consequently, flipping one bit inside the stored
`data_checksum` field of the postscript of a valid file makes open fail with
the checksum-mismatch error (flips elsewhere in the postscript, e.g. in the
padding, can leave the check passing). -/
theorem file_checksum_verification (file : List Nat) (j k : Nat)
    (hlen : 32 ≤ file.length)
    (hbytes : ∀ b ∈ file, b < 256)
    (hj : j < 8) (hk : k < 8)
    (hct : file.getD (file.length - 10) 0 = 0)
    (hvalid : leBytesToNat (((file.drop (file.length - 32)).drop 14).take 8) =
      computeChecksum ChecksumType.XxHash (file.take (file.length - 32))) :
    (∀ cs ct, verifyFileChecksumStep file cs ct = Except.ok () ↔
        cs = computeChecksum ct (file.take (file.length - POSTSCRIPT_SIZE))) ∧
    openFileChecksumStep (listFlipBit file (file.length - 18 + j) k) =
      Except.error (Err.General ("File level Checksum verification failed")) := by
  constructor
  · intro cs ct
    unfold verifyFileChecksumStep
    by_cases hcs : cs = computeChecksum ct (file.take (file.length - POSTSCRIPT_SIZE))
    · simp [hcs]
    · simp [hcs]
  · have hplt : file.length - 18 + j < file.length := by omega
    have hfb : file.getD (file.length - 18 + j) 0 < 256 := by
      rw [List.getD_eq_getElem?_getD, List.getElem?_eq_getElem hplt]
      exact hbytes _ (List.getElem_mem hplt)
    have hkb : 2 ^ k < 256 := by
      calc 2 ^ k < 2 ^ 8 := Nat.pow_lt_pow_right (by norm_num) hk
      _ = 256 := by norm_num
    have hvb : Nat.xor (file.getD (file.length - 18 + j) 0) (2 ^ k) < 256 :=
      Nat.bitwise_lt_two_pow (n := 8) hfb hkb
    have hvne : Nat.xor (file.getD (file.length - 18 + j) 0) (2 ^ k) ≠
        file.getD (file.length - 18 + j) 0 := by
      intro hcontra
      have h0 : file.getD (file.length - 18 + j) 0 ^^^ (2 ^ k) =
          file.getD (file.length - 18 + j) 0 ^^^ 0 := by
        simpa using hcontra
      have : (2 ^ k) = 0 := Nat.xor_right_inj.mp h0
      exact absurd this (Nat.pos_iff_ne_zero.mp (Nat.pos_pow_of_pos k (by norm_num)))
    -- unchanged data region
    have hdata : (file.set (file.length - 18 + j)
          (Nat.xor (file.getD (file.length - 18 + j) 0) (2 ^ k))).take
          (file.length - 32) = file.take (file.length - 32) :=
      List.take_set_of_lt _ file (by omega)
    -- postscript slice of the flipped file
    have hps : (file.set (file.length - 18 + j)
          (Nat.xor (file.getD (file.length - 18 + j) 0) (2 ^ k))).drop
          (file.length - 32) =
        (file.drop (file.length - 32)).set (14 + j)
          (Nat.xor (file.getD (file.length - 18 + j) 0) (2 ^ k)) := by
      rw [List.drop_set, if_neg (by omega)]
      congr 1
      omega
    -- the checksum-type byte is unchanged and zero
    have hct' : ((file.drop (file.length - 32)).set (14 + j)
          (Nat.xor (file.getD (file.length - 18 + j) 0) (2 ^ k))).getD 22 0 = 0 := by
      rw [List.getD_eq_getElem?_getD, List.getElem?_set_ne (by omega),
        List.getElem?_drop, ← List.getD_eq_getElem?_getD]
      have harith : file.length - 32 + 22 = file.length - 10 := by omega
      rw [harith]
      exact hct
    -- the stored checksum bytes have byte j flipped
    have hstore : (((file.drop (file.length - 32)).set (14 + j)
          (Nat.xor (file.getD (file.length - 18 + j) 0) (2 ^ k))).drop 14).take 8 =
        (((file.drop (file.length - 32)).drop 14).take 8).set j
          (Nat.xor (file.getD (file.length - 18 + j) 0) (2 ^ k)) := by
      rw [List.drop_set, if_neg (by omega)]
      have harith : 14 + j - 14 = j := by omega
      rw [harith, List.set_take]
    have hbslen : ((((file.drop (file.length - 32)).drop 14).take 8)).length = 8 := by
      simp only [List.length_take, List.length_drop]
      omega
    have hbsmem : ∀ b ∈ ((file.drop (file.length - 32)).drop 14).take 8, b < 256 := by
      intro b hb
      exact hbytes b (List.drop_subset _ _ (List.drop_subset _ _
        (List.take_subset _ _ hb)))
    -- byte j of the stored checksum is the file byte being flipped
    have hbj : (((file.drop (file.length - 32)).drop 14).take 8).getD j 0 =
        file.getD (file.length - 18 + j) 0 := by
      rw [List.getD_eq_getElem?_getD, List.getElem?_take_of_lt hj,
        List.getElem?_drop, List.getElem?_drop, ← List.getD_eq_getElem?_getD]
      congr 1
      omega
    -- the flipped stored-checksum bytes differ from the stored ones
    have hbsne : ((((file.drop (file.length - 32)).drop 14).take 8)).set j
          (Nat.xor (file.getD (file.length - 18 + j) 0) (2 ^ k)) ≠
        (((file.drop (file.length - 32)).drop 14).take 8) := by
      intro hcontra
      have hgj := congrArg (fun l => l.getD j 0) hcontra
      simp only at hgj
      rw [List.getD_eq_getElem?_getD, List.getElem?_set_self (by omega), hbj] at hgj
      exact hvne (by simpa using hgj)
    -- hence the decoded stored checksum changes
    have hdecne : leBytesToNat (((((file.drop (file.length - 32)).drop 14).take 8)).set j
          (Nat.xor (file.getD (file.length - 18 + j) 0) (2 ^ k))) ≠
        leBytesToNat (((file.drop (file.length - 32)).drop 14).take 8) := by
      intro hcontra
      refine hbsne (leBytesToNat_inj _ _ (List.length_set ..) ?_ hbsmem hcontra)
      intro x hx
      rcases List.mem_or_eq_of_mem_set hx with hmem | hx
      · exact hbsmem x hmem
      · rw [hx]
        exact hvb
    -- assemble: parse the flipped postscript, then the verification step
    show openFileChecksumStep (file.set (file.length - 18 + j)
      (Nat.xor (file.getD (file.length - 18 + j) 0) (2 ^ k))) = _
    unfold openFileChecksumStep readPostscript
    simp only [List.length_set]
    rw [if_neg (by simp only [POSTSCRIPT_SIZE]; omega)]
    simp only [POSTSCRIPT_SIZE]
    rw [hps, hct']
    show (match ChecksumType.tryFrom 0 with
      | .error e => Except.error e
      | .ok ct => _) = _
    simp only [ChecksumType.tryFrom, if_pos rfl]
    show verifyFileChecksumStep _ _ _ = _
    unfold verifyFileChecksumStep
    simp only [List.length_set, POSTSCRIPT_SIZE]
    rw [hstore, hdata]
    rw [if_pos (by rw [← hvalid]; exact hdecne)]

/-- Witness for C6's amended theorem: flipping bit 0 of the first stored
data-checksum byte (position 14) of the valid 32-byte file `exampleFileF`
makes the checksum verification fail. -/
theorem file_checksum_verification_witness :
    openFileChecksumStep (listFlipBit exampleFileF 14 0) =
      Except.error (Err.General ("File level Checksum verification failed")) := by
  have h := (file_checksum_verification exampleFileF 0 0 (by decide) (by decide)
    (by decide) (by decide) (by decide) (by decide)).2
  exact h

end F3
